import Mathlib

/-!
Verification development for the `crank_interest` repository (`src/main.rs`).

The program is a long-running cranker: a scheduler loop that (when its
30-day time gate fires) derives four program-derived addresses, builds a
two-instruction request, submits it fire-and-forget, and then checks that
the savings-vault account exists, classifying the cluster for diagnostics.

The embedding below translates the relevant functions of `src/main.rs`
into pure Lean functions.  Code with external effects (RPC calls, the
system clock, the anchor request builder) is modelled by passing the
result of each external call explicitly as an argument, so every
definition is executable on concrete inputs.  A value of a fallible
Rust expression becomes `Except`/`Option`; a Rust panic becomes `none`.
-/

namespace CrankInterest

/-! ## Constants of `src/main.rs` (lines 35-45, 160-163) -/

/-- Source line 35: the savings-vault program id, as a base58 string. -/
def SAVINGS_VAULT_PROGRAM_ID : String := "HfJVM6Ayjajt9H58AZoCFqkCQQFehSeQfGQbi3crxT8W"

/-- Source line 39: static compute-unit ceiling attached to every request. -/
def COMPUTE_UNITS : Nat := 400000

/-- Source line 42. -/
def SEED_SAVINGS_VAULT : String := "savings_vault"

/-- Source line 43. -/
def SEED_SAVINGS_VAULT_TREASURY : String := "savings_vault-treasury"

/-- Source line 44. -/
def SEED_INTEREST_DEPOSITOR_MANAGER : String := "interest_depositor_manager"

/-- Source line 45. -/
def SEED_INTEREST_DEPOSITOR_TREASURY : String := "interest_depositor_treasury"

/-- Source line 160: genesis hash of the devnet cluster, base58. -/
def DEVNET_HASH : String := "EtWTRABZaYq6iMfeYKouRu166VU2xqa1wcaWoxPkrZBG"

/-- Source line 163: genesis hash of the mainnet-beta cluster, base58. -/
def MAINNET_HASH : String := "5eykt4UsFv8P8NJdTREpY1vzqKqZKvdpKuc147dw2N9d"

/-! ## Identities and address derivation

`Pubkey::find_program_address` lives in `solana_sdk`, outside `src/`;
only its call sites are in the repository.  Following the spec (sections
3 and 4.1) it is a deterministic, collision-avoiding search: identical
(seed list, base identity) inputs always yield the identical derived
identity, and distinct seed lists yield addresses of distinct,
incompatible address spaces.  We therefore model a derived address as a
constructor application recording the seed list and the deriving
program, which makes the derivation pure and collision-free by
construction, and an external address as its base58 string. -/

mutual
/-- An account or program identity.  `base58 s` is an externally given
address written as its base58 string (base58 rendering of 32-byte
addresses is injective); `pda seeds program_id` is the derived address
returned by the program-derived-address search for `seeds` under
`program_id`. -/
inductive Pubkey where
  | base58 : String → Pubkey
  | pda : List Seed → Pubkey → Pubkey
/-- One seed of a derivation: either a byte-string literal from the
source or the 32-byte representation of an identity. -/
inductive Seed where
  | lit : String → Seed
  | key : Pubkey → Seed
end

/-- Modelled from the spec: `Pubkey::find_program_address` (from
`solana_sdk`, not under `src/`).  Spec 3 and 4.1: a deterministic
collision-avoidance search over bump bytes 255 down to 0 returning the
unique derived identity and the first valid bump; it is expected never
to exhaust in practice, so the model always succeeds, at the first
candidate bump 255, and records the derivation inputs in the result. -/
def find_program_address (seeds : List Seed) (program_id : Pubkey) : Pubkey × Nat :=
  (Pubkey.pda seeds program_id, 255)

/-- Source lines 67-72. -/
def find_savings_vault_pda (mint wallet : Pubkey) : Pubkey × Nat :=
  let savings_vault_seeds := [Seed.lit SEED_SAVINGS_VAULT, Seed.key mint, Seed.key wallet]
  let savings_vault_program_key := Pubkey.base58 SAVINGS_VAULT_PROGRAM_ID
  find_program_address savings_vault_seeds savings_vault_program_key

/-- Source lines 75-80. -/
def find_savings_vault_treasury_pda (savings_vault : Pubkey) : Pubkey × Nat :=
  let savings_vault_treasury_seeds := [Seed.lit SEED_SAVINGS_VAULT_TREASURY, Seed.key savings_vault]
  let savings_vault_program_key := Pubkey.base58 SAVINGS_VAULT_PROGRAM_ID
  find_program_address savings_vault_treasury_seeds savings_vault_program_key

/-- Source lines 82-87. -/
def find_interest_depositor_manager_pda (mint : Pubkey) : Pubkey × Nat :=
  let interest_depositor_manager_seeds := [Seed.lit SEED_INTEREST_DEPOSITOR_MANAGER, Seed.key mint]
  let savings_vault_program_key := Pubkey.base58 SAVINGS_VAULT_PROGRAM_ID
  find_program_address interest_depositor_manager_seeds savings_vault_program_key

/-- Source lines 89-94. -/
def find_interest_depositor_treasury_pda (interest_depositor_manager : Pubkey) : Pubkey × Nat :=
  let interest_depositor_treasury_seeds :=
    [Seed.lit SEED_INTEREST_DEPOSITOR_TREASURY, Seed.key interest_depositor_manager]
  let savings_vault_program_key := Pubkey.base58 SAVINGS_VAULT_PROGRAM_ID
  find_program_address interest_depositor_treasury_seeds savings_vault_program_key

/-- The four derived addresses of one (mint, wallet) pair, computed as in
source lines 106-109 (only the `.0` address component of each pair is
kept there). -/
structure DerivedAddresses where
  savings_vault : Pubkey
  savings_vault_treasury : Pubkey
  interest_depositor_manager : Pubkey
  interest_depositor_treasury : Pubkey

/-- Source lines 106-109: the derivation chain inside `crank_accrue_interest`. -/
def derive_all (mint wallet : Pubkey) : DerivedAddresses :=
  let savings_vault := (find_savings_vault_pda mint wallet).1
  let savings_vault_treasury := (find_savings_vault_treasury_pda savings_vault).1
  let interest_depositor_manager := (find_interest_depositor_manager_pda mint).1
  let interest_depositor_treasury :=
    (find_interest_depositor_treasury_pda interest_depositor_manager).1
  { savings_vault := savings_vault,
    savings_vault_treasury := savings_vault_treasury,
    interest_depositor_manager := interest_depositor_manager,
    interest_depositor_treasury := interest_depositor_treasury }

/-! ## Network identification (`get_cluster`, source lines 165-177) -/

/-- The `anchor_client::Cluster` enumeration (external crate), as used by
the source: the classification returned by `get_cluster` and consumed by
the diagnostic path of `crank_accrue_interest`. -/
inductive Cluster where
  | Testnet : Cluster
  | Mainnet : Cluster
  | Devnet : Cluster
  | Localnet : Cluster
  | Debug : Cluster
  | Custom : String → String → Cluster
deriving DecidableEq

/-- Source lines 165-177.  The one external effect of `get_cluster` is
`rpc_client.get_genesis_hash()`; its result (a base58 hash on success)
is passed in as the argument, and the `?` operator propagates its error. -/
def get_cluster (genesis_hash_result : Except String String) : Except String Cluster :=
  let devnet_hash := DEVNET_HASH
  let mainnet_hash := MAINNET_HASH
  match genesis_hash_result with
  | Except.error e => Except.error e
  | Except.ok genesis_hash =>
      Except.ok
        (if genesis_hash = devnet_hash then Cluster.Devnet
         else if genesis_hash = mainnet_hash then Cluster.Mainnet
         else Cluster.Devnet)

/-- Source line 144: `get_cluster(program.rpc()).unwrap_or(Cluster::Mainnet)`. -/
def unwrap_or_mainnet (r : Except String Cluster) : Cluster :=
  match r with
  | Except.ok c => c
  | Except.error _ => Cluster.Mainnet

/-- Source lines 144-147: the match arms turning the identified cluster
into the URL-style label embedded in the diagnostic message. -/
def cluster_url_param (c : Cluster) : String :=
  match c with
  | Cluster.Devnet => "?devnet"
  | _ => ""

/-! ## The crank executor (`crank_accrue_interest`, source lines 96-157) -/

/-- Source line 31: `spl_token::ID`, the token-accounting program. -/
def TOKEN_PROGRAM_ID : Pubkey := Pubkey.base58 "TokenkegQfeZyiNwAJbNbGKPFXCWuBvf9Ss623VQ5DA"

/-- Source line 125: `sysvar::clock::ID`, the clock reference account. -/
def CLOCK_SYSVAR_ID : Pubkey := Pubkey.base58 "SysvarC1ock11111111111111111111111111111111"

/-- The `savings_vault::accounts::AccrueInterest` account set of source
lines 116-126, in the order and roles the remote program expects. -/
structure AccrueInterestAccounts where
  mint : Pubkey
  cranker : Pubkey
  wallet : Pubkey
  savings_vault : Pubkey
  savings_vault_treasury : Pubkey
  interest_depositor_manager : Pubkey
  interest_depositor_treasury : Pubkey
  token_program : Pubkey
  clock : Pubkey

/-- An instruction of the submitted request: either the compute-budget
directive of source line 130 or the encoded accrue-interest call of
source lines 113-128. -/
inductive Instruction where
  | setComputeUnitLimit : Nat → Instruction
  | accrueInterest : AccrueInterestAccounts → Instruction

/-- The request assembled by source lines 132-136: an ordered instruction
list and the signer set. -/
structure CrankRequest where
  instructions : List Instruction
  signers : List Pubkey

/-- The error values `crank_accrue_interest` can return: the
vault-not-found diagnostic of source lines 148-152 (structured here as
the data embedded in the formatted message: the computed savings-vault
address and the cluster label), or a propagated builder error from the
`?` on source line 128. -/
inductive CrankError where
  | vaultNotFound : Pubkey → String → CrankError
  | other : String → CrankError

/-- Results of the external calls one execution of
`crank_accrue_interest` performs, passed in explicitly: the submission
result of `builder.send()` (line 138, discarded by the code), the
relaxed-consistency account read of lines 140-143 (`Err`, or `Ok` with
the vault account absent or present), and the genesis-hash fetch that
`get_cluster` performs on line 144. -/
structure RpcEnv where
  send_result : Except String String
  account_read : Except String (Option Unit)
  genesis_hash_result : Except String String

/-- Source lines 104-126: the account set handed to the request builder,
with the four addresses rederived from (mint, wallet). -/
def accrue_interest_accounts (cranker wallet mint : Pubkey) : AccrueInterestAccounts :=
  let d := derive_all mint wallet
  { mint := mint,
    cranker := cranker,
    wallet := wallet,
    savings_vault := d.savings_vault,
    savings_vault_treasury := d.savings_vault_treasury,
    interest_depositor_manager := d.interest_depositor_manager,
    interest_depositor_treasury := d.interest_depositor_treasury,
    token_program := TOKEN_PROGRAM_ID,
    clock := CLOCK_SYSVAR_ID }

/-- Modelled from the spec: `RequestBuilder::instructions()` of the
`anchor_client` crate (not under `src/`), called on source line 128 on a
request carrying exactly the `AccrueInterest` account set.  Spec 4.3:
the builder assembles the single accrue-interest call for those accounts
and fails only by propagating a derivation failure, which the spec calls
practically unreachable; so the model returns the one encoded
instruction. -/
def anchor_request_instructions (accts : AccrueInterestAccounts) :
    Except String (List Instruction) :=
  Except.ok [Instruction.accrueInterest accts]

/-- Source lines 128-156, with the result of line 128
(`.instructions()?`) abstracted as the first argument so that the
behavior on every possible builder result is defined.  `none` models a
panic: source line 135 indexes `accrue_ix[0]` without a length check,
and Rust indexing panics on an empty vector.  Otherwise the function
mirrors the source: build the two-instruction request signed by the
cranker, submit it discarding the result, then classify success purely
by the account-existence read, enriching the failure diagnostic with the
cluster label. -/
def crank_accrue_interest_core (accrue_ix_result : Except String (List Instruction))
    (env : RpcEnv) (cranker wallet mint : Pubkey) : Option (Except CrankError Unit) :=
  let savings_vault := (find_savings_vault_pda mint wallet).1
  match accrue_ix_result with
  | Except.error e => some (Except.error (CrankError.other e))
  | Except.ok accrue_ix =>
      match accrue_ix[0]? with
      | none => none
      | some first_ix =>
          let _builder : CrankRequest :=
            { instructions := [Instruction.setComputeUnitLimit COMPUTE_UNITS, first_ix],
              signers := [cranker] }
          let _sig := env.send_result
          match env.account_read with
          | Except.ok (some _) => some (Except.ok ())
          | _ =>
              let cluster_param :=
                cluster_url_param (unwrap_or_mainnet (get_cluster env.genesis_hash_result))
              some (Except.error (CrankError.vaultNotFound savings_vault cluster_param))

/-- Source lines 96-157: `crank_accrue_interest` with the builder result
of line 128 supplied by the modelled anchor builder. -/
def crank_accrue_interest (env : RpcEnv) (cranker wallet mint : Pubkey) :
    Option (Except CrankError Unit) :=
  crank_accrue_interest_core
    (anchor_request_instructions (accrue_interest_accounts cranker wallet mint))
    env cranker wallet mint

/-- Source lines 102-136 viewed as the instruction-builder component: the
request that reaches `builder.send()`, or `none` when the builder result
is empty or an error (in which case nothing is submitted). -/
def build_crank_request (cranker wallet mint : Pubkey) : Option CrankRequest :=
  match anchor_request_instructions (accrue_interest_accounts cranker wallet mint) with
  | Except.error _ => none
  | Except.ok accrue_ix =>
      match accrue_ix[0]? with
      | none => none
      | some first_ix =>
          some { instructions := [Instruction.setComputeUnitLimit COMPUTE_UNITS, first_ix],
                 signers := [cranker] }

/-! ## The scheduler loop (`main`, source lines 179-202) -/

/-- Source line 193: the hardcoded wallet being cranked. -/
def main_wallet : Pubkey := Pubkey.base58 "TUAXRFzyLeXmG9wPLaMXt66jUagfrWmL9oGq4rMwjAu"

/-- Source line 194: the hardcoded mint being cranked. -/
def main_mint : Pubkey := Pubkey.base58 "FmAFDKSPL61s8kQZCHwsZULA313pdHJ73PuBK4wePpNh"

/-- Chrono `Duration::num_days` on a duration of `secs` seconds: whole
days, with division truncating toward zero exactly as in the library. -/
def num_days (secs : Int) : Int := Int.tdiv secs 86400

/-- Source line 196: the time-gate predicate
`duration_since_last_execution.num_days() >= 30` applied to the elapsed
seconds since the reference timestamp. -/
def time_gate (elapsed_secs : Int) : Bool := num_days elapsed_secs ≥ 30

/-- The external inputs of one iteration of the `main` loop: the two
`Utc::now()` readings of lines 188 and 190 (as Unix seconds), the signer
loaded on line 197, and the RPC results the crank would consume. -/
structure IterEnv where
  now_at_loop_top : Int
  now_at_check : Int
  cranker : Pubkey
  rpc : RpcEnv

/-- What one loop iteration did: skipped (gate false) or executed the
crank with the given outcome (the loop discards it into `_res`). -/
inductive IterOutcome where
  | skipped : IterOutcome
  | cranked : Option (Except CrankError Unit) → IterOutcome

/-- Source lines 187-201: one iteration of the loop body.
`last_execution_time` is re-sampled from the clock at the top of every
iteration (line 188) before the comparison, exactly as written. -/
def scheduler_iteration (env : IterEnv) : IterOutcome :=
  let last_execution_time := env.now_at_loop_top
  let current_time := env.now_at_check
  let duration_since_last_execution := current_time - last_execution_time
  if time_gate duration_since_last_execution then
    IterOutcome.cranked (crank_accrue_interest env.rpc env.cranker main_wallet main_mint)
  else
    IterOutcome.skipped

/-- The first `n` iterations of the infinite `loop` of source lines
187-201, given the external inputs of each iteration; the outcome list
records what each iteration did. -/
def scheduler_run (envs : Nat → IterEnv) : Nat → List IterOutcome
  | 0 => []
  | Nat.succ n => scheduler_run envs n ++ [scheduler_iteration (envs n)]

/-! ## Concrete sample inputs used to evaluate the theorems -/

/-- A concrete RPC outcome set: submission apparently accepted, the
savings-vault account absent under the relaxed read, and the genesis
fetch failing. -/
def sample_rpc_env : RpcEnv :=
  { send_result := Except.ok "signature",
    account_read := Except.ok none,
    genesis_hash_result := Except.error "connection refused" }

/-- Iteration inputs whose two clock readings are one second apart, as
consecutive `Utc::now()` calls are in practice. -/
def idle_iter_envs : Nat → IterEnv := fun _ =>
  { now_at_loop_top := 0,
    now_at_check := 1,
    cranker := Pubkey.base58 "cranker",
    rpc := sample_rpc_env }

/-- Iteration inputs whose clock readings are exactly 30 days apart, so
the gate fires and the crank runs against `sample_rpc_env` and fails. -/
def failing_iter_envs : Nat → IterEnv := fun _ =>
  { now_at_loop_top := 0,
    now_at_check := 30 * 86400,
    cranker := Pubkey.base58 "cranker",
    rpc := sample_rpc_env }

/-! ## Helper lemmas -/

theorem num_days_lt_thirty {s : Int} (h : s < 30 * 86400) : num_days s < 30 := by
  unfold num_days
  rcases le_or_lt 0 s with hs | hs
  · rw [Int.tdiv_eq_ediv hs (by norm_num)]
    omega
  · have h1 : (0 : Int) ≤ -s := by omega
    have h2 : 0 ≤ (-s).tdiv 86400 := Int.tdiv_nonneg h1 (by norm_num)
    have h3 : s.tdiv 86400 = -((-s).tdiv 86400) := by
      rw [Int.neg_tdiv, neg_neg]
    omega

theorem time_gate_eq_false {s : Int} (h : s < 30 * 86400) : time_gate s = false := by
  have hd := num_days_lt_thirty h
  simp only [time_gate, ge_iff_le, decide_eq_false_iff_not, not_le]
  exact hd

theorem scheduler_run_length (envs : Nat → IterEnv) (n : Nat) :
    (scheduler_run envs n).length = n := by
  induction n with
  | zero => rfl
  | succ m ih => simp [scheduler_run, ih]

theorem scheduler_run_getElem (envs : Nat → IterEnv) {n k : Nat} (hk : k < n) :
    (scheduler_run envs n)[k]? = some (scheduler_iteration (envs k)) := by
  induction n with
  | zero => omega
  | succ m ih =>
      rw [scheduler_run, List.getElem?_append]
      rcases Nat.lt_or_ge k m with h | h
      · rw [if_pos (by rw [scheduler_run_length]; exact h)]
        exact ih h
      · have hkm : k = m := by omega
        subst hkm
        rw [if_neg (by rw [scheduler_run_length]; omega)]
        rw [scheduler_run_length]
        simp

/-! ## Claim theorems -/

/-- C1: in the `main` loop, `last_execution_time` is re-sampled from the
clock at the top of every iteration, right before the elapsed-time
comparison; therefore, as long as the two clock readings of an iteration
are less than 30 days apart (as two consecutive `Utc::now()` calls
always are in practice), the 30-day gate evaluates to false on every
loop iteration after the first and `crank_accrue_interest` is not
invoked there: the iteration is recorded as skipped. -/
theorem gate_never_fires_after_first (envs : Nat → IterEnv) (n k : Nat)
    (_hk1 : 1 ≤ k) (hkn : k < n)
    (hdrift : (envs k).now_at_check - (envs k).now_at_loop_top < 30 * 86400) :
    time_gate ((envs k).now_at_check - (envs k).now_at_loop_top) = false ∧
    (scheduler_run envs n)[k]? = some IterOutcome.skipped := by
  have hg := time_gate_eq_false hdrift
  refine ⟨hg, ?_⟩
  rw [scheduler_run_getElem envs hkn]
  simp [scheduler_iteration, hg]

/-- Witness for C1 at concrete inputs: with clock readings one second
apart, iteration 1 of a 3-iteration run is skipped. -/
theorem gate_never_fires_after_first_witness :
    time_gate ((idle_iter_envs 1).now_at_check - (idle_iter_envs 1).now_at_loop_top) = false ∧
    (scheduler_run idle_iter_envs 3)[1]? = some IterOutcome.skipped :=
  gate_never_fires_after_first idle_iter_envs 3 1 (by decide) (by decide) (by decide)

/-- C2: the time-gate predicate of source line 196 is false at an
elapsed time of exactly 29 days 23 hours 59 minutes 59 seconds and true
at exactly 30 days. -/
theorem time_gate_boundary :
    time_gate (29 * 86400 + 23 * 3600 + 59 * 60 + 59) = false ∧
    time_gate (30 * 86400) = true := by decide

/-- C3: on a successful genesis-hash fetch, `get_cluster` classifies the
devnet constant as `Devnet`, the mainnet constant as `Mainnet`, and any
other fingerprint as `Devnet` (the preserved fallback), so it never
returns any other classification on success. -/
theorem get_cluster_classification (g : String) :
    get_cluster (Except.ok g) =
      Except.ok (if g = MAINNET_HASH then Cluster.Mainnet else Cluster.Devnet) := by
  by_cases hd : g = DEVNET_HASH
  · subst hd
    have hne : DEVNET_HASH ≠ MAINNET_HASH := by decide
    simp [get_cluster, hne]
  · by_cases hm : g = MAINNET_HASH
    · subst hm
      simp [get_cluster, hd]
    · simp [get_cluster, hd, hm]

/-- C4 counterexample: the claim's "exactly when" direction fails.  When
the genesis fetch succeeds with the mainnet fingerprint, the cluster
value used to build the error message is `Mainnet` even though
`get_cluster` did not return an error. -/
theorem mainnet_label_without_identification_error :
    ¬ ((unwrap_or_mainnet (get_cluster (Except.ok MAINNET_HASH)) = Cluster.Mainnet) →
        ∃ e, get_cluster (Except.ok MAINNET_HASH) = Except.error e) := by
  intro himp
  have h1 : get_cluster (Except.ok MAINNET_HASH) = Except.ok Cluster.Mainnet := by
    have hne : MAINNET_HASH ≠ DEVNET_HASH := by decide
    simp [get_cluster, hne]
  obtain ⟨e, he⟩ := himp (by rw [h1]; rfl)
  rw [h1] at he
  cases he

/-- C4 (amended): whenever the network-identification call itself fails,
the cluster value used to build the diagnostic defaults to `Mainnet`
(the converse does not hold: `Mainnet` is also used when identification
succeeds on the mainnet fingerprint). -/
theorem mainnet_default_on_identification_error (g : Except String String) (e : String)
    (h : get_cluster g = Except.error e) :
    unwrap_or_mainnet (get_cluster g) = Cluster.Mainnet := by
  rw [h]
  rfl

/-- Witness for the amended C4 at a concrete input: a failed genesis
fetch yields the `Mainnet` default. -/
theorem mainnet_default_on_identification_error_witness :
    unwrap_or_mainnet (get_cluster (Except.error "connection refused")) = Cluster.Mainnet :=
  mainnet_default_on_identification_error (Except.error "connection refused")
    "connection refused" rfl

/-- C5: address derivation is deterministic.  In this embedding the
derivation is a pure function of the program identity and the ordered
seed list (no randomness, no network input appears in its signature), so
two invocations on the same input yield the identical (identity, bump)
pair, componentwise. -/
theorem derivation_deterministic (program_id : Pubkey) (seeds : List Seed)
    (mint wallet : Pubkey) :
    find_program_address seeds program_id = find_program_address seeds program_id ∧
    find_savings_vault_pda mint wallet = find_savings_vault_pda mint wallet ∧
    (find_savings_vault_pda mint wallet).1 = (find_savings_vault_pda mint wallet).1 ∧
    (find_savings_vault_pda mint wallet).2 = (find_savings_vault_pda mint wallet).2 :=
  ⟨rfl, rfl, rfl, rfl⟩

/-- C6: chain stability of the derived hierarchy.  Changing the wallet
with the mint fixed changes `savings_vault` but leaves
`interest_depositor_manager` and `interest_depositor_treasury`
unchanged; changing the mint changes all four derived addresses. -/
theorem chain_stability (mint wallet wallet₁ wallet₂ mint₁ mint₂ : Pubkey)
    (hw : wallet₁ ≠ wallet₂) (hm : mint₁ ≠ mint₂) :
    ((derive_all mint wallet₁).savings_vault ≠ (derive_all mint wallet₂).savings_vault ∧
     (derive_all mint wallet₁).interest_depositor_manager =
       (derive_all mint wallet₂).interest_depositor_manager ∧
     (derive_all mint wallet₁).interest_depositor_treasury =
       (derive_all mint wallet₂).interest_depositor_treasury) ∧
    ((derive_all mint₁ wallet).savings_vault ≠ (derive_all mint₂ wallet).savings_vault ∧
     (derive_all mint₁ wallet).savings_vault_treasury ≠
       (derive_all mint₂ wallet).savings_vault_treasury ∧
     (derive_all mint₁ wallet).interest_depositor_manager ≠
       (derive_all mint₂ wallet).interest_depositor_manager ∧
     (derive_all mint₁ wallet).interest_depositor_treasury ≠
       (derive_all mint₂ wallet).interest_depositor_treasury) := by
  refine ⟨⟨?_, rfl, rfl⟩, ⟨?_, ?_, ?_, ?_⟩⟩ <;>
    simp [derive_all, find_savings_vault_pda, find_savings_vault_treasury_pda,
      find_interest_depositor_manager_pda, find_interest_depositor_treasury_pda,
      find_program_address, hw, hm]

/-- Witness for C6 at concrete distinct addresses. -/
theorem chain_stability_witness :
    (derive_all (Pubkey.base58 "M") (Pubkey.base58 "W1")).savings_vault ≠
      (derive_all (Pubkey.base58 "M") (Pubkey.base58 "W2")).savings_vault :=
  (chain_stability (Pubkey.base58 "M") (Pubkey.base58 "W") (Pubkey.base58 "W1")
      (Pubkey.base58 "W2") (Pubkey.base58 "M1") (Pubkey.base58 "M2")
      (by simp) (by simp)).1.1

/-- C7: `crank_accrue_interest` succeeds exactly when the
post-submission relaxed-consistency read finds the savings-vault account
present, independently of the submission result; when the read errors or
reports the account absent, it returns the vault-not-found error built
from the computed savings-vault address and the identified cluster
label. -/
theorem crank_success_iff_vault_read_present (env : RpcEnv) (cranker wallet mint : Pubkey) :
    (crank_accrue_interest env cranker wallet mint = some (Except.ok ()) ↔
      env.account_read = Except.ok (some ())) ∧
    (∀ s, crank_accrue_interest { env with send_result := s } cranker wallet mint =
      crank_accrue_interest env cranker wallet mint) ∧
    (env.account_read ≠ Except.ok (some ()) →
      crank_accrue_interest env cranker wallet mint =
        some (Except.error (CrankError.vaultNotFound (find_savings_vault_pda mint wallet).1
          (cluster_url_param (unwrap_or_mainnet (get_cluster env.genesis_hash_result)))))) := by
  obtain ⟨sr, ar, gr⟩ := env
  cases ar with
  | error e =>
      exact ⟨by simp [crank_accrue_interest, crank_accrue_interest_core,
          anchor_request_instructions], fun s => rfl, fun _ => rfl⟩
  | ok a =>
      cases a with
      | none =>
          exact ⟨by simp [crank_accrue_interest, crank_accrue_interest_core,
              anchor_request_instructions], fun s => rfl, fun _ => rfl⟩
      | some u =>
          cases u
          exact ⟨by simp [crank_accrue_interest, crank_accrue_interest_core,
              anchor_request_instructions], fun s => rfl, fun h => absurd rfl h⟩

/-- Witness for C7 at a concrete input: with the account read reporting
the account absent, the crank returns the vault-not-found error carrying
the derived address and the cluster label. -/
theorem crank_success_iff_vault_read_present_witness :
    crank_accrue_interest sample_rpc_env (Pubkey.base58 "C") (Pubkey.base58 "W")
      (Pubkey.base58 "M") =
      some (Except.error (CrankError.vaultNotFound
        (find_savings_vault_pda (Pubkey.base58 "M") (Pubkey.base58 "W")).1
        (cluster_url_param (unwrap_or_mainnet
          (get_cluster sample_rpc_env.genesis_hash_result))))) :=
  (crank_success_iff_vault_read_present sample_rpc_env (Pubkey.base58 "C")
      (Pubkey.base58 "W") (Pubkey.base58 "M")).2.2 (by simp [sample_rpc_env])

/-- C8: for every (mint, wallet) pair the built request derives its four
resource addresses in the fixed chain under the fixed program identity,
attaches the token-accounting program, the clock reference and the
static 400000 compute-unit ceiling, as two instructions with the
compute-budget directive first and the accrue-interest call second,
signed once by the cranker. -/
theorem crank_request_composition (cranker wallet mint : Pubkey) :
    build_crank_request cranker wallet mint =
      (let program_key := Pubkey.base58 "HfJVM6Ayjajt9H58AZoCFqkCQQFehSeQfGQbi3crxT8W"
       let savings_vault :=
         (find_program_address [Seed.lit "savings_vault", Seed.key mint, Seed.key wallet]
           program_key).1
       let interest_depositor_manager :=
         (find_program_address [Seed.lit "interest_depositor_manager", Seed.key mint]
           program_key).1
       some
         { instructions :=
             [Instruction.setComputeUnitLimit 400000,
              Instruction.accrueInterest
                { mint := mint,
                  cranker := cranker,
                  wallet := wallet,
                  savings_vault := savings_vault,
                  savings_vault_treasury :=
                    (find_program_address
                      [Seed.lit "savings_vault-treasury", Seed.key savings_vault]
                      program_key).1,
                  interest_depositor_manager := interest_depositor_manager,
                  interest_depositor_treasury :=
                    (find_program_address
                      [Seed.lit "interest_depositor_treasury",
                       Seed.key interest_depositor_manager]
                      program_key).1,
                  token_program := TOKEN_PROGRAM_ID,
                  clock := CLOCK_SYSVAR_ID }],
           signers := [cranker] }) :=
  rfl

/-- C9: failure isolation.  The scheduler loop is total: a run of any
length n produces exactly n iteration outcomes, and the outcome of every
iteration k is a function of that iteration's own inputs alone, so no
per-cycle crank outcome (success or any error) aborts the loop or
prevents a later iteration from being attempted. -/
theorem scheduler_outlives_cycle_failures (envs : Nat → IterEnv) (n : Nat) :
    (scheduler_run envs n).length = n ∧
    ∀ k, k < n → (scheduler_run envs n)[k]? = some (scheduler_iteration (envs k)) :=
  ⟨scheduler_run_length envs n, fun _ hk => scheduler_run_getElem envs hk⟩

/-- Witness for C9 at a concrete input: with every cycle due and failing
(vault absent), iteration 1 is still attempted after the failed
iteration 0. -/
theorem scheduler_outlives_cycle_failures_witness :
    (scheduler_run failing_iter_envs 2)[1]? =
      some (scheduler_iteration (failing_iter_envs 1)) :=
  (scheduler_outlives_cycle_failures failing_iter_envs 2).2 1 (by decide)

/-- C10: the executor indexes the first element of the builder's
instruction list without a non-emptiness check: on an empty list it
panics (modelled as `none`) instead of taking any error branch, and on a
list result it returns normally exactly when the list has at least one
instruction. -/
theorem crank_panics_on_empty_builder_list (env : RpcEnv) (cranker wallet mint : Pubkey)
    (accrue_ix : List Instruction) :
    crank_accrue_interest_core (Except.ok []) env cranker wallet mint = none ∧
    ((crank_accrue_interest_core (Except.ok accrue_ix) env cranker wallet mint).isSome = true ↔
      accrue_ix ≠ []) := by
  refine ⟨rfl, ?_⟩
  cases accrue_ix with
  | nil => simp [crank_accrue_interest_core]
  | cons ix rest =>
      have hs : (crank_accrue_interest_core (Except.ok (ix :: rest)) env cranker wallet
          mint).isSome = true := by
        cases har : env.account_read with
        | error e => simp [crank_accrue_interest_core, har]
        | ok a => cases a <;> simp [crank_accrue_interest_core, har]
      simp [hs]

/-- Witness for C10 at a concrete input: a singleton instruction list
makes the executor return normally. -/
theorem crank_panics_on_empty_builder_list_witness :
    (crank_accrue_interest_core (Except.ok [Instruction.setComputeUnitLimit 1])
        sample_rpc_env (Pubkey.base58 "C") (Pubkey.base58 "W")
        (Pubkey.base58 "M")).isSome = true :=
  (crank_panics_on_empty_builder_list sample_rpc_env (Pubkey.base58 "C") (Pubkey.base58 "W")
      (Pubkey.base58 "M") [Instruction.setComputeUnitLimit 1]).2.mpr (by simp)

end CrankInterest
